import Mathlib

/-!
# SkillBot — verification of the entity store, lifecycle engine, archive
allocator and integrity auditor

Shallow embedding of the SkillBot sources (a Discord tutoring-server bot).
The embedded modules are:

* `Database`  — `src/Utils/database.py` (the per-guild SQLite record store,
  with `PRAGMA foreign_keys = ON`, the `UNIQUE` constraint on
  `teacher_student.channel_id`, and the `with conn:` commit/rollback
  discipline of `sqlite3.Connection`);
* `DbOld`     — `src/Utils/db.py` (the earlier store iteration, used through
  the API that `src/Coordination/student.py` calls: no foreign-key pragma,
  `UNIQUE` on `students.customer_id` and `teacher_student.channel_id`);
* guild-side objects (categories, text channels, members with roles and
  nicknames) as plain structures, standing for the discord.py object graph;
* the coordination functions `assign_student`, `unassign_teacher`,
  `rename_teacher` from `src/Coordination/`;
* the archive allocator `ArchiveCategory` from `src/Utils/archive.py`;
* the circular-subuser-reference check of `src/cogs/DatabaseIntegrity.py`.

Python ids are modelled as `Int` (platform ids are arbitrary Python ints and
the sources compare them with `<= 0`), SQL `REAL` as `Rat`, nullable columns
as `Option`.
-/

/-- The error kinds raised by the embedded sources: `UsageError` / `CodeError`
from `Utils/errors.py`, Python `ValueError`, `sqlite3.IntegrityError`
(re-raised as `DatabaseError`), and the not-found subclasses of
`DatabaseError` from `Utils/database.py`. -/
inductive Err where
  | usageError
  | codeError
  | valueError
  | integrityError
  | userNotFound
  | teacherNotFound
  | studentNotFound
  | connectionNotFound
  | archiveNotFound
deriving DecidableEq, Repr

namespace Database

/-- A row of the `users` table: `id INTEGER PRIMARY KEY`,
`real_name TEXT DEFAULT NULL`, `hours_in_class REAL NOT NULL`. -/
structure UserRow where
  id : Int
  realName : Option String
  hours : Rat
deriving DecidableEq, Repr

/-- A row of the `teachers` table: `user_id INTEGER PRIMARY KEY`, nullable
`subjects`, `phonenumber`, `availability`, `teaching_category`. -/
structure TeacherRow where
  userId : Int
  subjects : Option String
  phone : Option String
  availability : Option String
  teachingCategory : Option Int
deriving DecidableEq, Repr

/-- A row of the `students` table: `user_id INTEGER PRIMARY KEY`, nullable
`major_id`, `customer_id`. -/
structure StudentRow where
  userId : Int
  majorId : Option Int
  customerId : Option Int
deriving DecidableEq, Repr

/-- A row of the `teacher_student` table:
`PRIMARY KEY (teacher_id, student_id)`, `channel_id INTEGER NOT NULL UNIQUE`. -/
structure Conn where
  teacher : Int
  student : Int
  channel : Int
deriving DecidableEq, Repr

/-- The per-guild store created by `DatabaseManager.create_tables`.
`subusers` rows are `(user_id, subuser_id)` pairs, `voiceJoins` rows are
`(user_id, voice_channel_id, join_time)`, `archives` rows are `(id, name)`
with `name TEXT NOT NULL UNIQUE`, `devMode` holds the user ids with an
active row. -/
structure Store where
  users : List UserRow
  subusers : List (Int × Int)
  teachers : List TeacherRow
  students : List StudentRow
  conns : List Conn
  voiceJoins : List (Int × Int × Int)
  archives : List (Int × String)
  devMode : List Int
deriving DecidableEq, Repr

/-- The empty store, as right after `create_tables`. -/
def emptyStore : Store := ⟨[], [], [], [], [], [], [], []⟩

/-- `User.save`: `INSERT INTO users ... ON CONFLICT (id) DO UPDATE SET ...` —
insert-or-update by primary key. -/
def upsertUser (db : Store) (id : Int) (realName : Option String) (hours : Rat) : Store :=
  if db.users.any (fun r => r.id = id) then
    { db with users := db.users.map (fun r => if r.id = id then ⟨id, realName, hours⟩ else r) }
  else
    { db with users := db.users ++ [⟨id, realName, hours⟩] }

/-- Whether a `users` row is referenced through one of the schema's
`FOREIGN KEY (user_id) REFERENCES users (id)` clauses (`subusers`,
`teachers`, `students`, `user_voice_channel_join`, `dev_mode`); with
`PRAGMA foreign_keys = ON` a referenced row cannot be deleted. -/
def userReferenced (db : Store) (id : Int) : Bool :=
  db.subusers.any (fun p => p.1 = id) ||
  db.teachers.any (fun r => r.userId = id) ||
  db.students.any (fun r => r.userId = id) ||
  db.voiceJoins.any (fun p => p.1 = id) ||
  db.devMode.any (fun u => u = id)

/-- `User.delete`: `DELETE FROM users WHERE id = ?`; a foreign-key violation
surfaces as `DatabaseError` (here `integrityError`), and
`if cursor.rowcount == 0: raise UserNotFoundError(...)` when no row matched. -/
def userDelete (db : Store) (id : Int) : Except Err Store :=
  if db.users.any (fun r => r.id = id) then
    if userReferenced db id then .error .integrityError
    else .ok { db with users := db.users.filter (fun r => r.id ≠ id) }
  else .error .userNotFound

/-- `Teacher.pop`: `DELETE FROM teachers WHERE user_id = ?`; deleting a
teacher still referenced by `teacher_student.teacher_id` violates the
foreign key; `rowcount == 0` raises `TeacherNotFoundError`. -/
def teacherPop (db : Store) (id : Int) : Except Err Store :=
  if db.teachers.any (fun r => r.userId = id) then
    if db.conns.any (fun r => r.teacher = id) then .error .integrityError
    else .ok { db with teachers := db.teachers.filter (fun r => r.userId ≠ id) }
  else .error .teacherNotFound

/-- The body of `Student.pop`, the statements executed inside the
`with DatabaseManager._connect(...) as conn:` block before `conn.commit()`:
first `DELETE FROM teacher_student WHERE student_id = ?`, then
`DELETE FROM students WHERE user_id = ?`, and
`if cursor.rowcount == 0: raise StudentNotFoundError(...)`. -/
def studentPopBody (db : Store) (id : Int) : Except Err Store :=
  let db1 := { db with conns := db.conns.filter (fun r => r.student ≠ id) }
  if db1.students.any (fun r => r.userId = id) then
    .ok { db1 with students := db1.students.filter (fun r => r.userId ≠ id) }
  else .error .studentNotFound

/-- The transaction discipline of `with conn:` on a `sqlite3.Connection`:
the block's statements run against the working state; on normal exit the
work is committed, on an exception it is rolled back, leaving the stored
state untouched. Returns the outcome and the state actually persisted. -/
def sqliteTxn (db : Store) (body : Store → Except Err Store) : Except Err Store × Store :=
  match body db with
  | .ok db' => (.ok db', db')
  | .error e => (.error e, db)

/-- `Student.pop`: the body above run under the connection's transaction. -/
def studentPop (db : Store) (id : Int) : Except Err Store × Store :=
  sqliteTxn db (fun s => studentPopBody s id)

/-- `TeacherStudentConnection.delete`:
`DELETE FROM teacher_student WHERE teacher_id = ? AND student_id = ?`, with
`rowcount == 0` raising `ConnectionNotFoundError`. -/
def connDelete (db : Store) (t s : Int) : Except Err Store :=
  if db.conns.any (fun r => r.teacher = t && r.student = s) then
    .ok { db with conns := db.conns.filter (fun r => ¬(r.teacher = t ∧ r.student = s)) }
  else .error .connectionNotFound

/-- `Archive.delete`: `DELETE FROM archive WHERE id = ?`, with
`rowcount == 0` raising `ArchiveNotFoundError`. -/
def archiveDelete (db : Store) (id : Int) : Except Err Store :=
  if db.archives.any (fun p => p.1 = id) then
    .ok { db with archives := db.archives.filter (fun p => p.1 ≠ id) }
  else .error .archiveNotFound

/-- `TeacherStudentConnection.save`: `_validate` raises `ValueError` when
`teacher_id == student_id` or `channel_id <= 0`; then
`INSERT INTO teacher_student ... ON CONFLICT (teacher_id, student_id)
DO UPDATE SET channel_id = excluded.channel_id`. The statement fails with
`sqlite3.IntegrityError` (re-raised as `DatabaseError`) when the resulting
row would violate `channel_id INTEGER NOT NULL UNIQUE` — that is, when some
row of a *different* `(teacher_id, student_id)` pair already holds this
`channel_id` — or, on a fresh insert, when one of the foreign keys into
`teachers` / `students` is unsatisfied. -/
def tsSave (db : Store) (t s ch : Int) : Except Err Store :=
  if t = s then .error .valueError
  else if ch ≤ 0 then .error .valueError
  else if ∃ r ∈ db.conns, r.channel = ch ∧ ¬(r.teacher = t ∧ r.student = s) then
    .error .integrityError
  else if db.conns.any (fun r => r.teacher = t && r.student = s) then
    .ok { db with conns := db.conns.map (fun r => if r.teacher = t ∧ r.student = s then ⟨t, s, ch⟩ else r) }
  else if ¬ db.teachers.any (fun r => r.userId = t) ∨ ¬ db.students.any (fun r => r.userId = s) then
    .error .integrityError
  else
    .ok { db with conns := db.conns ++ [⟨t, s, ch⟩] }

/-- `Subuser.save`: raises `ValueError` when `subuser_id <= 0`; otherwise
`super().save()` upserts the `users` row (satisfying the `user_id` foreign
key) and then
`INSERT INTO subusers ... ON CONFLICT (user_id, subuser_id) DO NOTHING`
inserts the relationship. No check relates `user_id` and `subuser_id`. -/
def subuserSave (db : Store) (uid subId : Int) (realName : Option String) (hours : Rat) :
    Except Err Store :=
  if subId ≤ 0 then .error .valueError
  else
    let db1 := upsertUser db uid realName hours
    if db1.subusers.any (fun p => p.1 = uid && p.2 = subId) then .ok db1
    else .ok { db1 with subusers := db1.subusers ++ [(uid, subId)] }

/-- `teacher_student.channel_id` is never shared by two different
`(teacher_id, student_id)` pairs. -/
def channelUnique (l : List Conn) : Prop :=
  ∀ r₁ ∈ l, ∀ r₂ ∈ l, r₁.channel = r₂.channel → r₁.teacher = r₂.teacher ∧ r₁.student = r₂.student

end Database

/-- A guild text channel: its id, name, and the id of the category that
holds it (`None` for an uncategorised channel). -/
structure Chan where
  id : Int
  name : String
  cat : Option Int
deriving DecidableEq, Repr

/-- A guild category (id and name). Its channels are the guild channels
whose `cat` points at it. -/
structure Cat where
  id : Int
  name : String
deriving DecidableEq, Repr

/-- A guild member: id, role names, nickname. The role names stand for the
`discord.Role` objects that `env.get_teacher_role` etc. look up by name. -/
structure Member where
  id : Int
  roles : List String
  nick : Option String
deriving DecidableEq, Repr

/-- The live guild object graph: categories, text channels, and the id the
platform would assign to the next created channel. -/
structure Guild where
  cats : List Cat
  chans : List Chan
  nextChanId : Int
deriving DecidableEq, Repr

/-- The text channels of a category (`category.text_channels`), in guild
channel order. -/
def Guild.textChannelsOf (g : Guild) (catId : Int) : List Chan :=
  g.chans.filter (fun c => c.cat = some catId)

/-- Python `str.lower()` restricted to the ASCII letters (per-character
lowering; the sources only feed it real names). -/
def pyLower (s : String) : String := ⟨s.data.map Char.toLower⟩

/-- Python `str.replace(a, b)` for a single-character pattern and
replacement, as in `real_name.replace(' ', '-')`. -/
def pyReplaceChar (s : String) (a b : Char) : String :=
  ⟨s.data.map (fun c => if c = a then b else c)⟩

/-- `env.generate_student_channel_name`:
`student_name.lower().replace(' ', '-')`. -/
def generateStudentChannelName (n : String) : String :=
  pyReplaceChar (pyLower n) ' ' '-'

/-- A Python f-string renders `None` as the text `"None"`. -/
def pyStrOfOpt : Option String → String
  | some s => s
  | none => "None"

/-- `env.generate_member_nick(db_member)`: the icon picked from the
database-backed `is_teacher` / `is_student` checks, then a space, then
`real_name` (an f-string, so a missing name prints as `None`). -/
def genNick (isTeacherDb isStudentDb : Bool) (realName : Option String) : String :=
  (if isTeacherDb then "🎓" else if isStudentDb then "🎒" else "👋") ++ " " ++ pyStrOfOpt realName

/-- Python falsiness of an optional string (`if not db_teacher.real_name`):
`None` and the empty string are falsy. -/
def pyFalsyStr : Option String → Bool
  | none => true
  | some s => s = ""

namespace DbOld

/-- A row of `db.py`'s `students` table: `user_id INTEGER PRIMARY KEY`,
`major TEXT`, `customer_id TEXT UNIQUE`. -/
structure StudentRow where
  userId : Int
  major : Option String
  customerId : Option Int
deriving DecidableEq, Repr

/-- The store of `db.py` (no `PRAGMA foreign_keys`, so foreign keys are not
enforced); user and teacher and connection rows have the same shape as in
`database.py`. -/
structure Store where
  users : List Database.UserRow
  teachers : List Database.TeacherRow
  students : List StudentRow
  conns : List Database.Conn
deriving DecidableEq, Repr

/-- `db.py` `User.save`: insert-or-update of the `users` row. -/
def upsertUser (db : Store) (id : Int) (realName : Option String) (hours : Rat) : Store :=
  if db.users.any (fun r => r.id = id) then
    { db with users := db.users.map (fun r => if r.id = id then ⟨id, realName, hours⟩ else r) }
  else
    { db with users := db.users ++ [⟨id, realName, hours⟩] }

/-- The `students` part of `db.py` `Student.save`:
`INSERT ... ON CONFLICT (user_id) DO UPDATE ...`, failing with
`sqlite3.IntegrityError` when another student row already holds this
(non-NULL) `customer_id` (`customer_id TEXT UNIQUE`). -/
def studentUpsert (db : Store) (id : Int) (major : Option String) (customerId : Option Int) :
    Except Err Store :=
  if ∃ r ∈ db.students, r.userId ≠ id ∧ customerId ≠ none ∧ r.customerId = customerId then
    .error .integrityError
  else if db.students.any (fun r => r.userId = id) then
    .ok { db with students := db.students.map (fun r => if r.userId = id then ⟨id, major, customerId⟩ else r) }
  else
    .ok { db with students := db.students ++ [⟨id, major, customerId⟩] }

/-- `db.py` `TeacherStudentConnection.set_channel` followed by `save`:
upsert of the `(teacher_id, student_id)` row with the given `channel_id`,
failing with `sqlite3.IntegrityError` when a row of a different pair
already holds this `channel_id` (`channel_id INTEGER NOT NULL UNIQUE`). -/
def connSave (db : Store) (t s ch : Int) : Except Err Store :=
  if ∃ r ∈ db.conns, r.channel = ch ∧ ¬(r.teacher = t ∧ r.student = s) then
    .error .integrityError
  else if db.conns.any (fun r => r.teacher = t && r.student = s) then
    .ok { db with conns := db.conns.map (fun r => if r.teacher = t ∧ r.student = s then ⟨t, s, ch⟩ else r) }
  else
    .ok { db with conns := db.conns ++ [⟨t, s, ch⟩] }

end DbOld

/-- The outcome of `assign_student`: the raised error, if any, and the
states as left behind at that point (a Python exception aborts the call but
keeps the mutations already performed). -/
structure AssignOut where
  err : Option Err
  guild : Guild
  db : DbOld.Store
  student : Member
deriving DecidableEq, Repr

/-- The tail of `assign_student` (`src/Coordination/student.py`) once the
student channel `ch` has been found or created: `db_student.edit(...)`
(upsert of the `users` and `students` rows), `connect_teacher` (upsert of
the connection with `channel_id = ch.id`), then role grant and nickname;
the welcome message has no state effect. A database exception aborts the
call, keeping the states written so far. -/
def assignStudentTail (g : Guild) (db : DbOld.Store) (teacher student : Member)
    (realName : String) (customerId : Int) (major : Option String) (ch : Chan) : AssignOut :=
  let hours := ((db.users.find? (fun r => r.id = student.id)).map (fun r => r.hours)).getD 0
  let db1 := DbOld.upsertUser db student.id (some realName) hours
  match DbOld.studentUpsert db1 student.id major (some customerId) with
  | .error e => ⟨some e, g, db1, student⟩
  | .ok db2 =>
    match DbOld.connSave db2 teacher.id student.id ch.id with
    | .error e => ⟨some e, g, db2, student⟩
    | .ok db3 =>
      let nick := genNick (db3.teachers.any (fun r => r.userId = student.id))
        (db3.students.any (fun r => r.userId = student.id)) (some realName)
      let student' : Member :=
        { student with
          roles := if "Schüler" ∈ student.roles then student.roles else student.roles ++ ["Schüler"],
          nick := some nick }
      ⟨none, g, db3, student'⟩

/-- `assign_student` (`src/Coordination/student.py`): precondition checks
(`UsageError` unless the caller holds the `Lehrer` role and the target does
not hold the `Schüler` role), then the channel named
`generate_student_channel_name(real_name)` is searched among the guild's
text channels; only when absent is a new channel created under the
teacher's `teaching_category` (`CodeError` when that category is missing).
`silent` only suppresses the welcome message, which has no modelled state
effect. -/
def assignStudent (g : Guild) (db : DbOld.Store) (teacher student : Member)
    (realName : String) (customerId : Int) (major : Option String) (silent : Bool) : AssignOut :=
  if "Lehrer" ∉ teacher.roles then ⟨some .usageError, g, db, student⟩
  else if "Schüler" ∈ student.roles then ⟨some .usageError, g, db, student⟩
  else
    let chName := generateStudentChannelName realName
    match g.chans.find? (fun c => c.name = chName) with
    | some ch => assignStudentTail g db teacher student realName customerId major ch
    | none =>
      let tc := (db.teachers.find? (fun r => r.userId = teacher.id)).bind (fun r => r.teachingCategory)
      match tc.bind (fun cid => g.cats.find? (fun c => c.id = cid)) with
      | none => ⟨some .codeError, g, db, student⟩
      | some cat =>
        let newCh : Chan := ⟨g.nextChanId, chName, some cat.id⟩
        let g' : Guild := { g with chans := g.chans ++ [newCh], nextChanId := g.nextChanId + 1 }
        assignStudentTail g' db teacher student realName customerId major newCh

/-- The name `unassign_teacher` and `assign_teacher` use to locate a
teacher's category: `env.generate_member_nick(db_teacher)` evaluated
against the store. -/
def teacherCatName (db : Database.Store) (teacher : Member) : String :=
  genNick (db.teachers.any (fun r => r.userId = teacher.id))
    (db.students.any (fun r => r.userId = teacher.id))
    ((db.users.find? (fun r => r.id = teacher.id)).bind (fun r => r.realName))

/-- `unassign_teacher` (`src/Coordination/teacher.py`): `UsageError` unless
the member holds the `Lehrer` role; the teacher's category is looked up by
name (`generate_member_nick`); if it exists and holds any text channel not
named `cmd`, `UsageError` ("hat noch registrierte Schüler") — before any
mutation. Otherwise `db_teacher.pop()` removes the `teachers` row, the role
and nickname are cleared, and the category's text channels and the category
itself are deleted. -/
def unassignTeacher (g : Guild) (db : Database.Store) (teacher : Member) :
    Except Err (Guild × Database.Store × Member) :=
  if "Lehrer" ∉ teacher.roles then .error .usageError
  else
    let catName := teacherCatName db teacher
    let teacher' : Member := { teacher with roles := teacher.roles.erase "Lehrer", nick := none }
    match g.cats.find? (fun c => c.name = catName) with
    | some cat =>
      if (g.textChannelsOf cat.id).any (fun c => c.name ≠ "cmd") then .error .usageError
      else
        match Database.teacherPop db teacher.id with
        | .error e => .error e
        | .ok db' =>
          let g' : Guild :=
            { g with
              chans := g.chans.filter (fun c => c.cat ≠ some cat.id),
              cats := g.cats.filter (fun c => c.id ≠ cat.id) }
          .ok (g', db', teacher')
    | none =>
      match Database.teacherPop db teacher.id with
      | .error e => .error e
      | .ok db' => .ok (g, db', teacher')

/-- The `teachers` part of `Teacher.save`:
`INSERT ... ON CONFLICT (user_id) DO UPDATE ...`. -/
def Database.teacherUpsert (db : Database.Store) (id : Int) (subjects phone availability : Option String)
    (tc : Option Int) : Database.Store :=
  if db.teachers.any (fun r => r.userId = id) then
    { db with teachers := db.teachers.map (fun r => if r.userId = id then ⟨id, subjects, phone, availability, tc⟩ else r) }
  else
    { db with teachers := db.teachers ++ [⟨id, subjects, phone, availability, tc⟩] }

/-- `rename_teacher` (`src/Coordination/teacher.py`): `UsageError` unless
the invoker holds `Admin` and the target holds `Lehrer`; `CodeError` when
the stored `real_name` is falsy (`if not db_teacher.real_name`). Otherwise
the old name is remembered, `edit(real_name=new_name)` re-saves the `users`
and `teachers` rows, the nickname is regenerated, and the teacher's
category — looked up by the stored `teaching_category` id — is renamed when
found; when it is not found the anomaly is only logged and the call still
returns the old name. -/
def renameTeacher (g : Guild) (db : Database.Store) (user teacher : Member) (newName : String) :
    Except Err (String × Guild × Database.Store × Member) :=
  if "Admin" ∉ user.roles then .error .usageError
  else if "Lehrer" ∉ teacher.roles then .error .usageError
  else
    let uRow := db.users.find? (fun r => r.id = teacher.id)
    let rn := uRow.bind (fun r => r.realName)
    if pyFalsyStr rn then .error .codeError
    else
      let old := pyStrOfOpt rn
      let tRow := db.teachers.find? (fun r => r.userId = teacher.id)
      let tc := tRow.bind (fun r => r.teachingCategory)
      let hours := (uRow.map (fun r => r.hours)).getD 0
      let db1 := Database.upsertUser db teacher.id (some newName) hours
      let db2 := Database.teacherUpsert db1 teacher.id (tRow.bind (fun r => r.subjects))
        (tRow.bind (fun r => r.phone)) (tRow.bind (fun r => r.availability)) tc
      let nick := genNick (db2.teachers.any (fun r => r.userId = teacher.id))
        (db2.students.any (fun r => r.userId = teacher.id)) (some newName)
      let teacher' : Member := { teacher with nick := some nick }
      match tc.bind (fun cid => g.cats.find? (fun c => c.id = cid)) with
      | some cat =>
        let g' : Guild := { g with cats := g.cats.map (fun c => if c.id = cat.id then ⟨c.id, nick⟩ else c) }
        .ok (old, g', db2, teacher')
      | none => .ok (old, g, db2, teacher')

/-- `ArchiveCategory.can_add` (`src/Utils/archive.py`): the channel is not
already in the category and the category holds fewer than 50 channels. -/
def canAdd (g : Guild) (catId : Int) (chId : Int) : Bool :=
  ¬ (g.textChannelsOf catId).any (fun c => c.id = chId) &&
  (g.textChannelsOf catId).length < 50

/-- `ArchiveCategory.add_channel` (`src/Utils/archive.py`). In the source,
`can_add` is an `async def`, but `add_channel` tests `if self.can_add(channel):`
without `await`: the condition is the coroutine object itself, which Python
treats as truthy, so the `channel.edit(category=self.category)` branch runs
unconditionally and the fallback that would allocate a different bucket is
unreachable. -/
def addChannel (g : Guild) (catId : Int) (chId : Int) : Guild :=
  { g with chans := g.chans.map (fun c => if c.id = chId then { c with cat := some catId } else c) }

/-- Little-endian decimal digits of `n`, computed with `fuel` recursion
steps (`fuel = n` always suffices since a number has at most `n` digits). -/
def decDigitsAux : Nat → Nat → List Nat
  | 0, _ => []
  | _ + 1, 0 => []
  | fuel + 1, n + 1 => (n + 1) % 10 :: decDigitsAux fuel ((n + 1) / 10)

/-- A decimal digit as a character. -/
def decDigitChar (d : Nat) : Char :=
  if d = 0 then '0' else if d = 1 then '1' else if d = 2 then '2' else if d = 3 then '3'
  else if d = 4 then '4' else if d = 5 then '5' else if d = 6 then '6' else if d = 7 then '7'
  else if d = 8 then '8' else '9'

/-- Python `str(n)` for a non-negative integer: its decimal digits,
most-significant first. -/
def pyNatStr (n : Nat) : String :=
  if n = 0 then "0" else ⟨((decDigitsAux n n).reverse.map decDigitChar)⟩

/-- The candidate name tried by `_generate_name`'s inner loop:
`f"{base_icon} {base_name}"` for `count == 1`, otherwise
`f"{base_icon} {base_name} {count}"`. -/
def mkName (icon base : String) (count : Nat) : String :=
  if count = 1 then icon ++ " " ++ base
  else icon ++ " " ++ base ++ " " ++ pyNatStr count

/-- The `while True` loop of `_generate_name`: try `count`, `count + 1`, …
until a name not in `names` is found. The Python loop has no exit other
than `return`; the `fuel` bound makes the model total, and
`fuel = names.length + 1` provably always suffices (`findFresh_some`). -/
def findFresh (icon base : String) (names : List String) : Nat → Nat → Option String
  | 0, _ => none
  | fuel + 1, count =>
    let name := mkName icon base count
    if name ∈ names then findFresh icon base names fuel (count + 1) else some name

/-- `zip(BASE_ICONS, BASE_NAMES)` from `_generate_name`. -/
def archivePairs : List (String × String) :=
  [("📚", "Wissensbereich"), ("🗃️", "Wissenskammer"), ("🗄️", "Wissensspeicher"), ("📦", "Lehrarchiv")]

/-- The `for base_icon, base_name in zip(...)` loop of `_generate_name`;
`none` at the end corresponds to the final
`raise CodeError("Failed to generate a unique name ...")`. (In the source
the loop can in fact never move past its first pair: the inner `while True`
only exits by returning, so the `raise` is unreachable.) -/
def generateNameGo (names : List String) : List (String × String) → Option String
  | [] => none
  | (icon, base) :: rest =>
    match findFresh icon base names (names.length + 1) 1 with
    | some s => some s
    | none => generateNameGo names rest

/-- `ArchiveCategory._generate_name(guild_id)`, applied to the list of
archive names currently stored (`Archive.get_all`). -/
def generateName (names : List String) : Option String :=
  generateNameGo names archivePairs

/-- Python `list.index(x)` for an element that is present (the auditor only
calls it on a node known to be on the path). -/
def pyIndex (x : Int) : List Int → Nat
  | [] => 0
  | y :: ys => if y = x then 0 else pyIndex x ys + 1

/-- The adjacency built by `_check_circular_subuser_references`: a Python
dict keyed by `user_id` in first-insertion order, each key mapping to its
`subuser_id`s in row order. -/
def addEdge : List (Int × List Int) → Int → Int → List (Int × List Int)
  | [], u, v => [(u, [v])]
  | (k, vs) :: rest, u, v =>
    if k = u then (k, vs ++ [v]) :: rest else (k, vs) :: addEdge rest u v

/-- `graph = {}` then `graph[user_id].append(subuser_id)` over all
`subusers` rows in order. -/
def buildGraph (edges : List (Int × Int)) : List (Int × List Int) :=
  edges.foldl (fun g e => addEdge g e.1 e.2) []

/-- `if node in graph: ...` lookup. -/
def lookupG : List (Int × List Int) → Int → Option (List Int)
  | [], _ => none
  | (k, vs) :: rest, u => if k = u then some vs else lookupG rest u

/-- The `visited` and `recursion_stack` sets of the DFS, shared across the
whole check (they are closed over by `has_cycle` and persist across start
nodes; note the early `return cycle` path never removes the node from
`recursion_stack`, exactly as in the source). -/
structure DfsState where
  visited : List Int
  recStack : List Int
deriving DecidableEq, Repr

mutual

/-- `has_cycle(node, path)` from `_check_circular_subuser_references`:
if the node is on the recursion stack, the cycle `path[path.index(node):] + [node]`
is returned; a visited node yields nothing; otherwise the node is added to
both sets and the neighbours are explored with `path + [node]`; only when
no neighbour produced a cycle is the node removed from the recursion stack.
`fuel` bounds the recursion depth (each nested call visits a previously
unvisited node, so any fuel larger than the node count is enough). -/
def hasCycleAux (g : List (Int × List Int)) : Nat → Int → List Int → DfsState →
    Option (List Int) × DfsState
  | 0, _, _, st => (none, st)
  | fuel + 1, node, path, st =>
    if node ∈ st.recStack then
      (some (path.drop (pyIndex node path) ++ [node]), st)
    else if node ∈ st.visited then (none, st)
    else
      let st1 : DfsState := ⟨st.visited ++ [node], st.recStack ++ [node]⟩
      match lookupG g node with
      | some nbrs =>
        match hasCycleNbrs g fuel (path ++ [node]) nbrs st1 with
        | (some cy, st2) => (some cy, st2)
        | (none, st2) => (none, ⟨st2.visited, st2.recStack.erase node⟩)
      | none => (none, ⟨st1.visited, st1.recStack.erase node⟩)

/-- The `for neighbor in graph[node]:` loop of `has_cycle`: explore each
neighbour in turn, returning the first cycle found. -/
def hasCycleNbrs (g : List (Int × List Int)) : Nat → List Int → List Int → DfsState →
    Option (List Int) × DfsState
  | _, _, [], st => (none, st)
  | fuel, path, n :: ns, st =>
    match hasCycleAux g fuel n path st with
    | (some cy, st') => (some cy, st')
    | (none, st') => hasCycleNbrs g fuel path ns st'

end

/-- `_check_circular_subuser_references`: build the graph from the
`subusers` rows, then for each key not yet visited run `has_cycle` from it,
collecting one issue (the cycle) per start node that reports one. The fuel
passed to the DFS exceeds any possible recursion depth (each level visits a
new node, and there are at most `edges.length + graph-size` nodes). -/
def checkCircular (edges : List (Int × Int)) : List (List Int) :=
  let g := buildGraph edges
  let fuel := edges.length + g.length + 2
  (g.map Prod.fst).foldl
    (fun (p : List (List Int) × DfsState) start =>
      if start ∈ p.2.visited then p
      else
        match hasCycleAux g fuel start [] p.2 with
        | (some cy, st') => (p.1 ++ [cy], st')
        | (none, st') => (p.1, st'))
    ([], ⟨[], []⟩) |>.1

/-- The numeric value of a little-endian decimal digit list (used to show
`decDigitsAux` is faithful, hence `pyNatStr` injective). -/
def decVal : List Nat → Nat
  | [] => 0
  | d :: ds => d + 10 * decVal ds

/-- A guild whose single archive category (id 100) is exactly full: it
holds 50 text channels, and channel 61 (the one to archive) sits outside
it. -/
def fullArchiveGuild : Guild :=
  { cats := [⟨100, "📚 Wissensbereich"⟩],
    chans := (List.range 50).map (fun i => ⟨(i : Int) + 1, "alt", some 100⟩) ++ [⟨61, "neu", none⟩],
    nextChanId := 62 }

/-- A store with teacher 10, students 20 and 21, and one connection
(10, 20) on channel 5 — the concrete input of the uniqueness witness. -/
def c2Base : Database.Store :=
  { Database.emptyStore with
    teachers := [⟨10, none, none, none, none⟩],
    students := [⟨20, none, none⟩, ⟨21, none, none⟩],
    conns := [⟨10, 20, 5⟩] }

/-! ## Theorems -/

/-- Claim C1 (code bug): on an archive bucket already holding 50 channels,
`add_channel` does not place the channel into a different bucket — because
`self.can_add(channel)` is not awaited, its coroutine object is truthy and
the channel is moved into the original, full category, whose channel count
then reaches 51, even though `can_add` itself would have answered `False`. -/
theorem archive_add_channel_overfills_full_bucket :
    (fullArchiveGuild.textChannelsOf 100).length = 50 ∧
    canAdd fullArchiveGuild 100 61 = false ∧
    ((addChannel fullArchiveGuild 100 61).textChannelsOf 100).length = 51 := by
  decide

/-- Claim C5, counterexample: `User.delete` on an id with no stored row does
not complete without error — it raises `UserNotFoundError`
(`if cursor.rowcount == 0: raise UserNotFoundError(...)`). -/
theorem user_delete_absent_raises :
    Database.userDelete Database.emptyStore 1 = .error .userNotFound := rfl

/-- Claim C5 (amended): deleting an absent row fails with the corresponding
not-found error for every entity kind, *including* `User` — `User.delete` is
not idempotent; it raises `UserNotFoundError` exactly like the
`Teacher` / `Student` / `Connection` / `Archive` deletions raise theirs. -/
theorem delete_absent_entities_error :
    ∀ (db : Database.Store) (id t s : Int),
      (db.users.any (fun r => r.id = id) = false →
        Database.userDelete db id = .error .userNotFound) ∧
      (db.teachers.any (fun r => r.userId = id) = false →
        Database.teacherPop db id = .error .teacherNotFound) ∧
      (db.students.any (fun r => r.userId = id) = false →
        Database.studentPop db id = (.error .studentNotFound, db)) ∧
      (db.conns.any (fun r => r.teacher = t && r.student = s) = false →
        Database.connDelete db t s = .error .connectionNotFound) ∧
      (db.archives.any (fun p => p.1 = id) = false →
        Database.archiveDelete db id = .error .archiveNotFound) := by
  intro db id t s
  refine ⟨fun h => ?_, fun h => ?_, fun h => ?_, fun h => ?_, fun h => ?_⟩
  · simp [Database.userDelete, h]
  · simp [Database.teacherPop, h]
  · simp [Database.studentPop, Database.sqliteTxn, Database.studentPopBody, h]
  · simp [Database.connDelete, h]
  · simp [Database.archiveDelete, h]

/-- Witness for `delete_absent_entities_error` at the empty store. -/
theorem delete_absent_entities_error_witness :
    Database.userDelete Database.emptyStore 1 = .error .userNotFound ∧
    Database.teacherPop Database.emptyStore 1 = .error .teacherNotFound ∧
    Database.studentPop Database.emptyStore 1 = (.error .studentNotFound, Database.emptyStore) ∧
    Database.connDelete Database.emptyStore 1 2 = .error .connectionNotFound ∧
    Database.archiveDelete Database.emptyStore 1 = .error .archiveNotFound := by
  obtain ⟨h1, h2, h3, h4, h5⟩ := delete_absent_entities_error Database.emptyStore 1 1 2
  exact ⟨h1 rfl, h2 rfl, h3 rfl, h4 rfl, h5 rfl⟩

/-- Claim C6 (code bug): saving `Subuser(user_id=1, subuser_id=1)` is not
rejected — `Subuser.save` validates only `subuser_id > 0`, so the
self-referencing row `(1, 1)` is persisted (the DatabaseIntegrity cog later
reports exactly such rows as integrity issues). -/
theorem subuser_self_reference_persisted :
    ∃ db', Database.subuserSave Database.emptyStore 1 1 none 0 = .ok db' ∧
      (1, 1) ∈ db'.subusers :=
  ⟨⟨[⟨1, none, 0⟩], [(1, 1)], [], [], [], [], [], []⟩, rfl, by decide⟩

/-- Claim C10: `Student.pop` on a user with no stored student row raises
`StudentNotFoundError`, and the `with conn:` block rolls the transaction
back, so the `teacher_student` rows deleted earlier in the same transaction
are restored — the persisted store is unchanged. -/
theorem student_pop_absent_rolls_back :
    ∀ (db : Database.Store) (id : Int),
      db.students.any (fun r => r.userId = id) = false →
      Database.studentPop db id = (.error .studentNotFound, db) ∧
      (Database.studentPop db id).2.conns = db.conns := by
  intro db id h
  constructor <;> simp [Database.studentPop, Database.sqliteTxn, Database.studentPopBody, h]

/-- Witness for `student_pop_absent_rolls_back`: a store holding a
connection row for student 2 but no `students` row; the connection row
survives the failed pop. -/
theorem student_pop_absent_rolls_back_witness :
    Database.studentPop { Database.emptyStore with conns := [⟨1, 2, 5⟩] } 2 =
      (.error .studentNotFound, { Database.emptyStore with conns := [⟨1, 2, 5⟩] }) ∧
    (Database.studentPop { Database.emptyStore with conns := [⟨1, 2, 5⟩] } 2).2.conns =
      [⟨1, 2, 5⟩] :=
  student_pop_absent_rolls_back { Database.emptyStore with conns := [⟨1, 2, 5⟩] } 2 (by decide)

/-- Claim C2: a successful `TeacherStudentConnection.save` preserves the
invariant that no `channel_id` is shared by two different
`(teacher_id, student_id)` pairs, and saving a connection whose
`channel_id` already belongs to a different pair always fails with an
error (the `UNIQUE` constraint on `channel_id`). -/
theorem connection_channel_unique :
    ∀ (db db' : Database.Store) (t s ch : Int),
      (Database.channelUnique db.conns → Database.tsSave db t s ch = .ok db' →
        Database.channelUnique db'.conns) ∧
      (∀ r ∈ db.conns, r.channel = ch → ¬(r.teacher = t ∧ r.student = s) →
        ∃ e, Database.tsSave db t s ch = .error e) := by
  intro db db' t s ch
  constructor
  · intro hU hOk
    by_cases h1 : t = s
    · simp [Database.tsSave, h1] at hOk
    by_cases h2 : ch ≤ 0
    · simp [Database.tsSave, h1, h2] at hOk
    by_cases h3 : ∃ r ∈ db.conns, r.channel = ch ∧ ¬(r.teacher = t ∧ r.student = s)
    · unfold Database.tsSave at hOk
      rw [if_neg h1, if_neg h2, if_pos h3] at hOk
      exact absurd hOk (by simp)
    have h3' : ∀ r ∈ db.conns, r.channel = ch → r.teacher = t ∧ r.student = s := by
      intro r hr hrch
      by_contra hpair
      exact h3 ⟨r, hr, hrch, hpair⟩
    unfold Database.tsSave at hOk
    rw [if_neg h1, if_neg h2, if_neg h3] at hOk
    by_cases h4 : db.conns.any (fun r => r.teacher = t && r.student = s) = true
    · rw [if_pos h4] at hOk
      cases Except.ok.inj hOk
      intro r₁ hr₁ r₂ hr₂ hch
      obtain ⟨a₁, ha₁, rfl⟩ := List.mem_map.mp hr₁
      obtain ⟨a₂, ha₂, rfl⟩ := List.mem_map.mp hr₂
      by_cases p₁ : a₁.teacher = t ∧ a₁.student = s
      · by_cases p₂ : a₂.teacher = t ∧ a₂.student = s
        · rw [if_pos p₁, if_pos p₂]
          exact ⟨rfl, rfl⟩
        · rw [if_pos p₁, if_neg p₂] at hch ⊢
          exact absurd (h3' a₂ ha₂ hch.symm) p₂
      · by_cases p₂ : a₂.teacher = t ∧ a₂.student = s
        · rw [if_neg p₁, if_pos p₂] at hch ⊢
          exact absurd (h3' a₁ ha₁ hch) p₁
        · rw [if_neg p₁, if_neg p₂] at hch ⊢
          exact hU a₁ ha₁ a₂ ha₂ hch
    · rw [if_neg h4] at hOk
      by_cases h5 : ¬ db.teachers.any (fun r => r.userId = t) = true ∨
          ¬ db.students.any (fun r => r.userId = s) = true
      · rw [if_pos h5] at hOk
        exact absurd hOk (by simp)
      rw [if_neg h5] at hOk
      cases Except.ok.inj hOk
      intro r₁ hr₁ r₂ hr₂ hch
      rcases List.mem_append.mp hr₁ with m₁ | m₁ <;>
        rcases List.mem_append.mp hr₂ with m₂ | m₂
      · exact hU r₁ m₁ r₂ m₂ hch
      · have e₂ : r₂ = ⟨t, s, ch⟩ := by simpa using m₂
        subst e₂
        exact h3' r₁ m₁ hch
      · have e₁ : r₁ = ⟨t, s, ch⟩ := by simpa using m₁
        subst e₁
        obtain ⟨ha, hb⟩ := h3' r₂ m₂ hch.symm
        exact ⟨ha.symm, hb.symm⟩
      · have e₁ : r₁ = ⟨t, s, ch⟩ := by simpa using m₁
        have e₂ : r₂ = ⟨t, s, ch⟩ := by simpa using m₂
        subst e₁; subst e₂
        exact ⟨rfl, rfl⟩
  · intro r hr hrch hpair
    by_cases h1 : t = s
    · exact ⟨.valueError, by simp [Database.tsSave, h1]⟩
    by_cases h2 : ch ≤ 0
    · exact ⟨.valueError, by simp [Database.tsSave, h1, h2]⟩
    refine ⟨.integrityError, ?_⟩
    have hex : ∃ r' ∈ db.conns, r'.channel = ch ∧ ¬(r'.teacher = t ∧ r'.student = s) :=
      ⟨r, hr, hrch, hpair⟩
    unfold Database.tsSave
    rw [if_neg h1, if_neg h2, if_pos hex]

/-- Witness for `connection_channel_unique`: on `c2Base`, saving (10, 21)
with the fresh channel 7 preserves uniqueness, and saving (10, 21) with
channel 5 — already held by the pair (10, 20) — fails. -/
theorem connection_channel_unique_witness :
    Database.channelUnique ({ c2Base with conns := [⟨10, 20, 5⟩, ⟨10, 21, 7⟩] } : Database.Store).conns ∧
    (∃ e, Database.tsSave c2Base 10 21 5 = .error e) := by
  constructor
  · exact (connection_channel_unique c2Base
      { c2Base with conns := [⟨10, 20, 5⟩, ⟨10, 21, 7⟩] } 10 21 7).1
      (by unfold Database.channelUnique; decide) (by rfl)
  · exact (connection_channel_unique c2Base c2Base 10 21 5).2 ⟨10, 20, 5⟩ (by decide) rfl (by decide)

/-- The `teachers` upsert of `Teacher.save` leaves the `users` table
untouched. -/
theorem Database.teacherUpsert_users (db : Database.Store) (id : Int)
    (a b c : Option String) (tc : Option Int) :
    (Database.teacherUpsert db id a b c tc).users = db.users := by
  unfold Database.teacherUpsert
  split <;> rfl

/-- After `User.save`, the `users` table holds the saved row. -/
theorem Database.mem_upsertUser_users (db : Database.Store) (id : Int)
    (rn : Option String) (hrs : Rat) :
    (⟨id, rn, hrs⟩ : Database.UserRow) ∈ (Database.upsertUser db id rn hrs).users := by
  unfold Database.upsertUser
  by_cases h : db.users.any (fun r => r.id = id) = true
  · rw [if_pos h]
    obtain ⟨a, ha, hid⟩ := List.any_eq_true.mp h
    have hfa : (fun r => if r.id = id then (⟨id, rn, hrs⟩ : Database.UserRow) else r) a =
        ⟨id, rn, hrs⟩ := by
      simp [of_decide_eq_true hid]
    have hmem := List.mem_map_of_mem
      (fun r => if r.id = id then (⟨id, rn, hrs⟩ : Database.UserRow) else r) ha
    rw [hfa] at hmem
    exact hmem
  · rw [if_neg h]
    exact List.mem_append_right _ (by simp)

/-- Claim C4, counterexample: teacher 7 ("Ada", category 50) has only the
`cmd` channel left — their one student (20) is stashed, so the student's
channel sits in an archive category while the `teacher_student` row
(7, 20, 9) is still stored. `unassign_teacher` then does not succeed: the
`teachers`-row delete violates the `teacher_student.teacher_id` foreign key
(enforced by `PRAGMA foreign_keys = ON`) and the call fails with
`DatabaseError`, not with success. -/
theorem unassign_teacher_stale_connection_fails :
    unassignTeacher ⟨[⟨50, "🎓 Ada"⟩], [⟨1, "cmd", some 50⟩], 3⟩
      { Database.emptyStore with
        users := [⟨7, some "Ada", 0⟩], teachers := [⟨7, none, none, none, some 50⟩],
        students := [⟨20, none, none⟩], conns := [⟨7, 20, 9⟩] }
      ⟨7, ["Lehrer"], some "🎓 Ada"⟩ = .error .integrityError := by
  rfl

/-- Claim C4 (amended): with the teacher's category found by its generated
name, `unassign_teacher` raises `UsageError` (before any mutation) whenever
that category holds a text channel other than `cmd`. Once only `cmd`-named
channels remain, the outcome depends on the store: with no
`teacher_student` row still referencing the teacher it succeeds, deleting
the `teachers` row, the category's channels and the category itself; with
such a row remaining (e.g. a stashed student's), `db_teacher.pop()` hits
the `teacher_student.teacher_id` foreign key and the call fails with
`DatabaseError` instead. -/
theorem unassign_teacher_guard :
    ∀ (g : Guild) (db : Database.Store) (teacher : Member) (cat : Cat),
      "Lehrer" ∈ teacher.roles →
      db.teachers.any (fun r => r.userId = teacher.id) = true →
      g.cats.find? (fun c => c.name = teacherCatName db teacher) = some cat →
      ((g.textChannelsOf cat.id).any (fun c => c.name ≠ "cmd") = true →
        unassignTeacher g db teacher = .error .usageError) ∧
      ((g.textChannelsOf cat.id).any (fun c => c.name ≠ "cmd") = false →
        (db.conns.any (fun r => r.teacher = teacher.id) = false →
          ∃ g' db' t', unassignTeacher g db teacher = .ok (g', db', t') ∧
            (∀ r ∈ db'.teachers, r.userId ≠ teacher.id) ∧
            (∀ c ∈ g'.cats, c.id ≠ cat.id) ∧
            (∀ c ∈ g'.chans, c.cat ≠ some cat.id)) ∧
        (db.conns.any (fun r => r.teacher = teacher.id) = true →
          unassignTeacher g db teacher = .error .integrityError)) := by
  intro g db teacher cat hrole hT hfind
  constructor
  · intro hbusy
    simp only [unassignTeacher, hfind]
    rw [if_neg (not_not_intro hrole), if_pos hbusy]
  · intro hclear
    constructor
    · intro hC
      refine ⟨⟨g.cats.filter (fun c => c.id ≠ cat.id),
               g.chans.filter (fun c => c.cat ≠ some cat.id), g.nextChanId⟩,
              { db with teachers := db.teachers.filter (fun r => r.userId ≠ teacher.id) },
              ⟨teacher.id, teacher.roles.erase "Lehrer", none⟩, ?_, ?_, ?_, ?_⟩
      · simp only [unassignTeacher, hfind]
        rw [if_neg (not_not_intro hrole), if_neg (by rw [hclear]; exact Bool.false_ne_true)]
        simp only [Database.teacherPop]
        rw [if_pos hT, if_neg (by rw [hC]; exact Bool.false_ne_true)]
      · intro r hrr
        simpa using (List.mem_filter.mp hrr).2
      · intro c hc
        simpa using (List.mem_filter.mp hc).2
      · intro c hc
        simpa using (List.mem_filter.mp hc).2
    · intro hC
      simp only [unassignTeacher, hfind]
      rw [if_neg (not_not_intro hrole), if_neg (by rw [hclear]; exact Bool.false_ne_true)]
      simp only [Database.teacherPop]
      rw [if_pos hT, if_pos hC]

/-- Witness for `unassign_teacher_guard`: teacher 7 ("Ada", category 50)
with a student channel `ben` still present (the call fails with
`UsageError`), and the same state with only `cmd` left and no stored
connection (the call succeeds and deletes everything). -/
theorem unassign_teacher_guard_witness :
    unassignTeacher ⟨[⟨50, "🎓 Ada"⟩], [⟨1, "cmd", some 50⟩, ⟨2, "ben", some 50⟩], 3⟩
      { Database.emptyStore with
        users := [⟨7, some "Ada", 0⟩], teachers := [⟨7, none, none, none, some 50⟩] }
      ⟨7, ["Lehrer"], some "🎓 Ada"⟩ = .error .usageError ∧
    (∃ g' db' t', unassignTeacher ⟨[⟨50, "🎓 Ada"⟩], [⟨1, "cmd", some 50⟩], 3⟩
      { Database.emptyStore with
        users := [⟨7, some "Ada", 0⟩], teachers := [⟨7, none, none, none, some 50⟩] }
      ⟨7, ["Lehrer"], some "🎓 Ada"⟩ = .ok (g', db', t') ∧
      (∀ r ∈ db'.teachers, r.userId ≠ (7 : Int)) ∧
      (∀ c ∈ g'.cats, c.id ≠ (50 : Int)) ∧
      (∀ c ∈ g'.chans, c.cat ≠ some (50 : Int))) := by
  constructor
  · exact (unassign_teacher_guard ⟨[⟨50, "🎓 Ada"⟩], [⟨1, "cmd", some 50⟩, ⟨2, "ben", some 50⟩], 3⟩
      { Database.emptyStore with
        users := [⟨7, some "Ada", 0⟩], teachers := [⟨7, none, none, none, some 50⟩] }
      ⟨7, ["Lehrer"], some "🎓 Ada"⟩ ⟨50, "🎓 Ada"⟩
      (by decide) (by decide) (by decide)).1 (by decide)
  · exact ((unassign_teacher_guard ⟨[⟨50, "🎓 Ada"⟩], [⟨1, "cmd", some 50⟩], 3⟩
      { Database.emptyStore with
        users := [⟨7, some "Ada", 0⟩], teachers := [⟨7, none, none, none, some 50⟩] }
      ⟨7, ["Lehrer"], some "🎓 Ada"⟩ ⟨50, "🎓 Ada"⟩
      (by decide) (by decide) (by decide)).2 (by decide)).1 (by decide)

/-- Claim C7, counterexample: teacher 7 ("Ada") has no category on record
(`teaching_category` is NULL), yet `rename_teacher` does not fail with
`CodeError` — it only logs the missing category, still renames, and
returns the previous name "Ada". -/
theorem rename_teacher_no_category_succeeds :
    ∃ g' db' t', renameTeacher ⟨[], [], 1⟩
        { Database.emptyStore with
          users := [⟨7, some "Ada", 0⟩], teachers := [⟨7, none, none, none, none⟩] }
        ⟨1, ["Admin"], none⟩ ⟨7, ["Lehrer"], none⟩ "Grace" = .ok ("Ada", g', db', t') :=
  ⟨_, _, _, rfl⟩

/-- Claim C7 (amended): `rename_teacher` updates the stored `real_name` to
the new name and returns the previous one; when the teacher has no category
on record it logs the anomaly and still succeeds; `CodeError` is raised
(only) when the stored `real_name` is falsy (NULL or empty). -/
theorem rename_teacher_behavior :
    ∀ (g : Guild) (db : Database.Store) (user teacher : Member) (newName : String),
      "Admin" ∈ user.roles → "Lehrer" ∈ teacher.roles →
      (pyFalsyStr ((db.users.find? (fun r => r.id = teacher.id)).bind (fun r => r.realName)) = true →
        renameTeacher g db user teacher newName = .error .codeError) ∧
      (∀ u s₀, db.users.find? (fun r => r.id = teacher.id) = some u →
        u.realName = some s₀ → s₀ ≠ "" →
        ∃ g' db' t', renameTeacher g db user teacher newName = .ok (s₀, g', db', t') ∧
          ∃ r ∈ db'.users, r.id = teacher.id ∧ r.realName = some newName) := by
  intro g db user teacher newName hAdmin hLehrer
  constructor
  · intro hfalsy
    simp only [renameTeacher]
    rw [if_neg (not_not_intro hAdmin), if_neg (not_not_intro hLehrer), if_pos hfalsy]
  · intro u s₀ hfind hname hne
    have hfalsy : pyFalsyStr ((db.users.find? (fun r => r.id = teacher.id)).bind
        (fun r => r.realName)) = false := by
      rw [hfind, Option.some_bind, hname]
      simp [pyFalsyStr, hne]
    cases hcat : ((db.teachers.find? (fun r => r.userId = teacher.id)).bind
        (fun r => r.teachingCategory)).bind (fun cid => g.cats.find? (fun c => c.id = cid)) with
    | none =>
      refine ⟨?_, ?_, ?_, ?_, ?_⟩
      rotate_left 3
      · simp only [renameTeacher]
        rw [if_neg (not_not_intro hAdmin), if_neg (not_not_intro hLehrer),
          if_neg (by rw [hfalsy]; exact Bool.false_ne_true), hfind, hcat]
        simp only [Option.some_bind]
        rw [hname]
        exact rfl
      · rw [Database.teacherUpsert_users]
        exact ⟨⟨teacher.id, some newName, u.hours⟩,
          Database.mem_upsertUser_users db teacher.id (some newName) u.hours, rfl, rfl⟩
    | some cat =>
      refine ⟨?_, ?_, ?_, ?_, ?_⟩
      rotate_left 3
      · simp only [renameTeacher]
        rw [if_neg (not_not_intro hAdmin), if_neg (not_not_intro hLehrer),
          if_neg (by rw [hfalsy]; exact Bool.false_ne_true), hfind, hcat]
        simp only [Option.some_bind]
        rw [hname]
        exact rfl
      · rw [Database.teacherUpsert_users]
        exact ⟨⟨teacher.id, some newName, u.hours⟩,
          Database.mem_upsertUser_users db teacher.id (some newName) u.hours, rfl, rfl⟩

/-- Witness for `rename_teacher_behavior`: renaming teacher 7 ("Ada",
category 50 present) to "Grace" returns "Ada" and stores "Grace". -/
theorem rename_teacher_behavior_witness :
    ∃ g' db' t', renameTeacher ⟨[⟨50, "🎓 Ada"⟩], [], 1⟩
        { Database.emptyStore with
          users := [⟨7, some "Ada", 0⟩], teachers := [⟨7, none, none, none, some 50⟩] }
        ⟨1, ["Admin"], none⟩ ⟨7, ["Lehrer"], none⟩ "Grace" = .ok ("Ada", g', db', t') ∧
      ∃ r ∈ db'.users, r.id = (7 : Int) ∧ r.realName = some "Grace" :=
  (rename_teacher_behavior ⟨[⟨50, "🎓 Ada"⟩], [], 1⟩
      { Database.emptyStore with
        users := [⟨7, some "Ada", 0⟩], teachers := [⟨7, none, none, none, some 50⟩] }
      ⟨1, ["Admin"], none⟩ ⟨7, ["Lehrer"], none⟩ "Grace" (by decide) (by decide)).2
    ⟨7, some "Ada", 0⟩ "Ada" (by decide) rfl (by decide)

/-- A successful `db.py` connection save leaves a row for the pair with the
saved channel id. -/
theorem DbOld.connSave_mem (db : DbOld.Store) (t s ch : Int) (db' : DbOld.Store) :
    DbOld.connSave db t s ch = .ok db' →
    ∃ r ∈ db'.conns, r.teacher = t ∧ r.student = s ∧ r.channel = ch := by
  intro h
  unfold DbOld.connSave at h
  by_cases h1 : ∃ r ∈ db.conns, r.channel = ch ∧ ¬(r.teacher = t ∧ r.student = s)
  · rw [if_pos h1] at h
    exact absurd h (by simp)
  rw [if_neg h1] at h
  by_cases h2 : db.conns.any (fun r => r.teacher = t && r.student = s) = true
  · rw [if_pos h2] at h
    cases Except.ok.inj h
    obtain ⟨a, ha, hp⟩ := List.any_eq_true.mp h2
    have hp' : a.teacher = t ∧ a.student = s := by simpa using hp
    have hfa : (fun r => if r.teacher = t ∧ r.student = s then (⟨t, s, ch⟩ : Database.Conn) else r) a
        = ⟨t, s, ch⟩ := by
      simp [hp'.1, hp'.2]
    have hmem := List.mem_map_of_mem
      (fun r => if r.teacher = t ∧ r.student = s then (⟨t, s, ch⟩ : Database.Conn) else r) ha
    rw [hfa] at hmem
    exact ⟨⟨t, s, ch⟩, hmem, rfl, rfl, rfl⟩
  · rw [if_neg h2] at h
    cases Except.ok.inj h
    exact ⟨⟨t, s, ch⟩, List.mem_append_right _ (by simp), rfl, rfl, rfl⟩

/-- `assign_student`'s tail never touches the guild's channels. -/
theorem assignStudentTail_guild (g : Guild) (db : DbOld.Store) (teacher student : Member)
    (realName : String) (customerId : Int) (major : Option String) (ch : Chan) :
    (assignStudentTail g db teacher student realName customerId major ch).guild = g := by
  simp only [assignStudentTail]
  split
  · rfl
  · split <;> rfl

/-- When `assign_student`'s tail succeeds, the store holds a connection row
for the pair pointing at the channel it was given. -/
theorem assignStudentTail_conn (g : Guild) (db : DbOld.Store) (teacher student : Member)
    (realName : String) (customerId : Int) (major : Option String) (ch : Chan) :
    (assignStudentTail g db teacher student realName customerId major ch).err = none →
    ∃ r ∈ (assignStudentTail g db teacher student realName customerId major ch).db.conns,
      r.teacher = teacher.id ∧ r.student = student.id ∧ r.channel = ch.id := by
  simp only [assignStudentTail]
  split
  · intro h
    simp at h
  · rename_i db2 heq2
    split
    · intro h
      simp at h
    · rename_i db3 heq3
      intro _
      exact DbOld.connSave_mem db2 teacher.id student.id ch.id db3 heq3

/-- Claim C3: when the guild already holds a channel whose name is the
deterministic slug of the real name (as after a partial earlier run),
re-running `assign_student` leaves the guild's channel list unchanged —
whatever its outcome, it never creates a second channel with that name —
and on success the stored connection reuses the found channel's id. -/
theorem assign_student_reuses_existing_channel :
    ∀ (g : Guild) (db : DbOld.Store) (teacher student : Member) (n : String)
      (cid : Int) (major : Option String) (silent : Bool) (ch : Chan),
      g.chans.find? (fun c => c.name = generateStudentChannelName n) = some ch →
      (assignStudent g db teacher student n cid major silent).guild.chans = g.chans ∧
      ((assignStudent g db teacher student n cid major silent).err = none →
        ∃ r ∈ (assignStudent g db teacher student n cid major silent).db.conns,
          r.teacher = teacher.id ∧ r.student = student.id ∧ r.channel = ch.id) := by
  intro g db teacher student n cid major silent ch hfind
  by_cases hT : "Lehrer" ∉ teacher.roles
  · constructor
    · simp [assignStudent, hT]
    · intro h
      simp [assignStudent, hT] at h
  by_cases hS : "Schüler" ∈ student.roles
  · constructor
    · simp [assignStudent, hT, hS]
    · intro h
      simp [assignStudent, hT, hS] at h
  have hred : assignStudent g db teacher student n cid major silent =
      assignStudentTail g db teacher student n cid major ch := by
    simp only [assignStudent]
    rw [if_neg hT, if_neg hS, hfind]
  rw [hred]
  constructor
  · rw [assignStudentTail_guild]
  · exact assignStudentTail_conn g db teacher student n cid major ch

/-- Witness for `assign_student_reuses_existing_channel`: guild with the
channel `max-muster` (id 9) already present; re-assigning "Max Muster"
keeps the channel list unchanged. -/
theorem assign_student_reuses_existing_channel_witness :
    (assignStudent ⟨[⟨50, "🎓 Ada"⟩], [⟨9, "max-muster", some 50⟩], 10⟩ ⟨[], [], [], []⟩
        ⟨7, ["Lehrer"], none⟩ ⟨20, [], none⟩ "Max Muster" 1 none false).guild.chans =
      [⟨9, "max-muster", some 50⟩] ∧
    ((assignStudent ⟨[⟨50, "🎓 Ada"⟩], [⟨9, "max-muster", some 50⟩], 10⟩ ⟨[], [], [], []⟩
        ⟨7, ["Lehrer"], none⟩ ⟨20, [], none⟩ "Max Muster" 1 none false).err = none →
      ∃ r ∈ (assignStudent ⟨[⟨50, "🎓 Ada"⟩], [⟨9, "max-muster", some 50⟩], 10⟩ ⟨[], [], [], []⟩
        ⟨7, ["Lehrer"], none⟩ ⟨20, [], none⟩ "Max Muster" 1 none false).db.conns,
        r.teacher = (7 : Int) ∧ r.student = (20 : Int) ∧ r.channel = (9 : Int)) :=
  assign_student_reuses_existing_channel ⟨[⟨50, "🎓 Ada"⟩], [⟨9, "max-muster", some 50⟩], 10⟩
    ⟨[], [], [], []⟩ ⟨7, ["Lehrer"], none⟩ ⟨20, [], none⟩ "Max Muster" 1 none false
    ⟨9, "max-muster", some 50⟩ (by decide)

/-- `decDigitsAux` with enough fuel really computes the decimal digits:
their little-endian value is the number itself. -/
theorem decVal_decDigitsAux : ∀ (fuel n : Nat), n ≤ fuel → decVal (decDigitsAux fuel n) = n := by
  intro fuel
  induction fuel with
  | zero =>
    intro n hn
    have : n = 0 := Nat.le_zero.mp hn
    subst this
    rfl
  | succ f ih =>
    intro n hn
    cases n with
    | zero => rfl
    | succ m =>
      have hdiv : (m + 1) / 10 ≤ f := by
        have := Nat.div_lt_self (Nat.succ_pos m) (by norm_num : 1 < 10)
        omega
      have : decVal (decDigitsAux (f + 1) (m + 1)) =
          (m + 1) % 10 + 10 * decVal (decDigitsAux f ((m + 1) / 10)) := rfl
      rw [this, ih ((m + 1) / 10) hdiv]
      omega

/-- Every entry of `decDigitsAux` is a decimal digit. -/
theorem decDigitsAux_lt10 : ∀ (fuel n d : Nat), d ∈ decDigitsAux fuel n → d < 10 := by
  intro fuel
  induction fuel with
  | zero =>
    intro n d hd
    simp [decDigitsAux] at hd
  | succ f ih =>
    intro n d hd
    cases n with
    | zero => simp [decDigitsAux] at hd
    | succ m =>
      rw [show decDigitsAux (f + 1) (m + 1) = (m + 1) % 10 :: decDigitsAux f ((m + 1) / 10)
        from rfl] at hd
      rcases List.mem_cons.mp hd with h | h
      · subst h
        exact Nat.mod_lt _ (by norm_num)
      · exact ih _ _ h

/-- `decDigitChar` distinguishes the ten decimal digits. -/
theorem decDigitChar_inj_fin : ∀ a b : Fin 10, decDigitChar a.val = decDigitChar b.val → a = b := by
  decide

/-- `decDigitChar` is injective on digits. -/
theorem decDigitChar_inj : ∀ a b : Nat, a < 10 → b < 10 →
    decDigitChar a = decDigitChar b → a = b := by
  intro a b ha hb h
  exact congrArg Fin.val (decDigitChar_inj_fin ⟨a, ha⟩ ⟨b, hb⟩ h)

/-- Digit lists render to distinct character lists. -/
theorem map_decDigitChar_inj : ∀ (l₁ l₂ : List Nat), (∀ d ∈ l₁, d < 10) → (∀ d ∈ l₂, d < 10) →
    l₁.map decDigitChar = l₂.map decDigitChar → l₁ = l₂ := by
  intro l₁
  induction l₁ with
  | nil =>
    intro l₂ _ _ h
    cases l₂ with
    | nil => rfl
    | cons b bs => simp at h
  | cons a as ih =>
    intro l₂ h₁ h₂ h
    cases l₂ with
    | nil => simp at h
    | cons b bs =>
      simp only [List.map_cons, List.cons.injEq] at h
      obtain ⟨hab, htl⟩ := h
      have hab' : a = b := decDigitChar_inj a b (h₁ a (by simp)) (h₂ b (by simp)) hab
      subst hab'
      rw [ih bs (fun d hd => h₁ d (by simp [hd])) (fun d hd => h₂ d (by simp [hd])) htl]

/-- Python `str` is injective on positive numbers. -/
theorem pyNatStr_inj_pos : ∀ a b : Nat, 1 ≤ a → 1 ≤ b → pyNatStr a = pyNatStr b → a = b := by
  intro a b ha hb h
  unfold pyNatStr at h
  rw [if_neg (by omega), if_neg (by omega)] at h
  have hl : (decDigitsAux a a).reverse.map decDigitChar =
      (decDigitsAux b b).reverse.map decDigitChar := congrArg String.data h
  have hrev : (decDigitsAux a a).reverse = (decDigitsAux b b).reverse :=
    map_decDigitChar_inj _ _
      (fun d hd => decDigitsAux_lt10 a a d (List.mem_reverse.mp hd))
      (fun d hd => decDigitsAux_lt10 b b d (List.mem_reverse.mp hd)) hl
  have hdg : decDigitsAux a a = decDigitsAux b b := List.reverse_injective hrev
  have hv := decVal_decDigitsAux a a le_rfl
  rw [hdg, decVal_decDigitsAux b b le_rfl] at hv
  omega

/-- The candidate names of `_generate_name`'s inner loop are pairwise
distinct across counts. -/
theorem mkName_inj (icon base : String) : ∀ c₁ c₂ : Nat, 1 ≤ c₁ → 1 ≤ c₂ →
    mkName icon base c₁ = mkName icon base c₂ → c₁ = c₂ := by
  intro c₁ c₂ h₁ h₂ h
  unfold mkName at h
  by_cases e₁ : c₁ = 1 <;> by_cases e₂ : c₂ = 1
  · omega
  · exfalso
    rw [if_pos e₁, if_neg e₂] at h
    have hlen := congrArg String.length h
    simp only [String.length_append] at hlen
    rw [show (" " : String).length = 1 from rfl] at hlen
    omega
  · exfalso
    rw [if_neg e₁, if_pos e₂] at h
    have hlen := congrArg String.length h
    simp only [String.length_append] at hlen
    rw [show (" " : String).length = 1 from rfl] at hlen
    omega
  · rw [if_neg e₁, if_neg e₂] at h
    have hdata := congrArg String.data h
    simp only [String.data_append] at hdata
    have hp := List.append_cancel_left hdata
    exact pyNatStr_inj_pos c₁ c₂ h₁ h₂ (String.ext hp)

/-- Pigeonhole for the inner loop: among the first `names.length + 1`
counts, some candidate name is not yet stored. -/
theorem mkName_fresh_exists (icon base : String) (names : List String) :
    ∃ c, 1 ≤ c ∧ c ≤ names.length + 1 ∧ mkName icon base c ∉ names := by
  by_contra hcon
  push_neg at hcon
  have hinj : Function.Injective (fun i : Nat => mkName icon base (i + 1)) := by
    intro i j hij
    have := mkName_inj icon base (i + 1) (j + 1) (by omega) (by omega) hij
    omega
  have hnd : ((List.range (names.length + 1)).map (fun i => mkName icon base (i + 1))).Nodup :=
    (List.nodup_range _).map hinj
  have hsub : ((List.range (names.length + 1)).map (fun i => mkName icon base (i + 1))) ⊆ names := by
    intro x hx
    obtain ⟨i, hi, rfl⟩ := List.mem_map.mp hx
    exact hcon (i + 1) (by omega) (by have := List.mem_range.mp hi; omega)
  have hle := (hnd.subperm hsub).length_le
  simp only [List.length_map, List.length_range] at hle
  omega

/-- Whatever the `while True` loop returns is not an already-stored name. -/
theorem findFresh_not_mem (icon base : String) (names : List String) :
    ∀ (fuel count : Nat) (s : String), findFresh icon base names fuel count = some s →
      s ∉ names := by
  intro fuel
  induction fuel with
  | zero =>
    intro count s h
    simp [findFresh] at h
  | succ f ih =>
    intro count s h
    simp only [findFresh] at h
    by_cases hm : mkName icon base count ∈ names
    · rw [if_pos hm] at h
      exact ih _ _ h
    · rw [if_neg hm] at h
      cases Option.some.inj h
      exact hm

/-- With a fresh candidate within reach of the fuel, the loop returns. -/
theorem findFresh_some (icon base : String) (names : List String) :
    ∀ (fuel count : Nat), (∃ c, count ≤ c ∧ c < count + fuel ∧ mkName icon base c ∉ names) →
      ∃ s, findFresh icon base names fuel count = some s := by
  intro fuel
  induction fuel with
  | zero =>
    intro count h
    obtain ⟨c, h1, h2, _⟩ := h
    omega
  | succ f ih =>
    intro count h
    obtain ⟨c, h1, h2, h3⟩ := h
    simp only [findFresh]
    by_cases hm : mkName icon base count ∈ names
    · rw [if_pos hm]
      apply ih (count + 1)
      have hne : c ≠ count := fun e => h3 (by rw [e]; exact hm)
      exact ⟨c, by omega, by omega, h3⟩
    · rw [if_neg hm]
      exact ⟨_, rfl⟩

/-- Claim C8: on every finite list of stored archive names,
`_generate_name` terminates and returns an icon + base-name (+ suffix)
candidate that is not among them; the `CodeError` raise is reached only in
the (unreachable) case that the enumeration is exhausted — here it never
is, since the very first (icon, base-name) pair always yields a fresh
suffix. -/
theorem archive_generate_name_fresh :
    ∀ names : List String, ∃ s, generateName names = some s ∧ s ∉ names := by
  intro names
  obtain ⟨c, h1, h2, h3⟩ := mkName_fresh_exists "📚" "Wissensbereich" names
  obtain ⟨s, hs⟩ := findFresh_some "📚" "Wissensbereich" names (names.length + 1) 1
    ⟨c, h1, by omega, h3⟩
  refine ⟨s, ?_, findFresh_not_mem "📚" "Wissensbereich" names _ _ _ hs⟩
  simp only [generateName, generateNameGo, archivePairs]
  rw [hs]

/-- Claim C9: on exactly the subuser edges a→b, b→c, c→a over three
distinct users, the circular-reference check reports exactly one issue,
whose cycle ([a, b, c, a]) contains all three users. -/
theorem circular_subuser_check_single_cycle (a b c : Int)
    (hab : a ≠ b) (hbc : b ≠ c) (hac : a ≠ c) :
    ∃ cy, checkCircular [(a, b), (b, c), (c, a)] = [cy] ∧ a ∈ cy ∧ b ∈ cy ∧ c ∈ cy := by
  have hgraph : buildGraph [(a, b), (b, c), (c, a)] = [(a, [b]), (b, [c]), (c, [a])] := by
    simp [buildGraph, addEdge, hab, hbc, hac, Ne.symm hab, Ne.symm hbc, Ne.symm hac]
  refine ⟨[a, b, c, a], ?_, by simp, by simp, by simp⟩
  simp [checkCircular, hgraph, hasCycleAux, hasCycleNbrs, lookupG, pyIndex,
    hab, hbc, hac, Ne.symm hab, Ne.symm hbc, Ne.symm hac]

/-- Witness for `circular_subuser_check_single_cycle` at users 1, 2, 3. -/
theorem circular_subuser_check_single_cycle_witness :
    ∃ cy, checkCircular [((1 : Int), (2 : Int)), (2, 3), (3, 1)] = [cy] ∧
      (1 : Int) ∈ cy ∧ (2 : Int) ∈ cy ∧ (3 : Int) ∈ cy :=
  circular_subuser_check_single_cycle 1 2 3 (by decide) (by decide) (by decide)
